import Mathlib

/-!
# ShipmentBooking: pricing and eligibility rules

A shallow embedding of the logic of `frontend/src/components/ShipmentBooking.jsx`:
the carrier and delivery catalogs, the pricing effect, `checkCODEligibility`,
`isBookingEligible`, `isBookingDisabled`, `handleBookingClick`, the booking
eligibility alert and the booking button.

JavaScript numbers are modelled by rationals (exact arithmetic, no rounding).
A shipment is a JavaScript object: a list of named properties whose values are
JavaScript values; reading a property that is not there gives `undefined`.
-/

namespace ShipmentBooking

/-! ## JavaScript values -/

/-- A JavaScript value as a shipment property can hold it. Numbers are exact
rationals (`-0` is `0`), `nan` is the number NaN, and `obj ref` is a reference
to some object or array, identified by `ref`. -/
inductive JSVal where
  | undefined
  | null
  | bool (b : Bool)
  | num (q : ℚ)
  | nan
  | str (s : String)
  | obj (ref : Nat)
  deriving DecidableEq

/-- ToBoolean: what `!v`, `v ? a : b` and `v && w` test. -/
def JSVal.truthy : JSVal → Bool
  | .undefined => false
  | .null => false
  | .bool b => b
  | .num q => decide (q ≠ 0)
  | .nan => false
  | .str s => decide (s ≠ "")
  | .obj _ => true

/-- Strict equality `a === b`: same type and same value; NaN equals nothing. -/
def JSVal.strictEq (a b : JSVal) : Bool :=
  match a, b with
  | .nan, .nan => false
  | a, b => decide (a = b)

/-- SameValueZero, the comparison of `Array.prototype.includes`: as `===`
except that NaN equals NaN. -/
def JSVal.sameValueZero (a b : JSVal) : Bool :=
  decide (a = b)

/-- The call `arr.includes(v)`. -/
def arrayIncludes (arr : List JSVal) (v : JSVal) : Bool :=
  arr.any (fun x => JSVal.sameValueZero x v)

/-- A JavaScript object with its own properties; the first binding of a name
is the one in force. -/
structure JSObject where
  props : List (String × JSVal)
  deriving DecidableEq

/-- Property read `o.k`: `undefined` when the object has no property `k`. -/
def JSObject.get (o : JSObject) (k : String) : JSVal :=
  match o.props.lookup k with
  | some v => v
  | none => .undefined

/-- The object `{ ...o, k: v }`: as `o` with property `k` holding `v`. -/
def JSObject.set (o : JSObject) (k : String) (v : JSVal) : JSObject :=
  ⟨(k, v) :: o.props⟩

/-- The shipment record supplied by the caller. -/
abbrev Shipment := JSObject

/-- The `shipment` prop of the component: a shipment object, or absent
(`null` or `undefined`). -/
inductive ShipmentProp where
  | undefined
  | null
  | object (s : Shipment)
  deriving DecidableEq

/-- An exception thrown by the JavaScript code. -/
inductive JSError where
  | typeError
  deriving DecidableEq

/-! ## Catalogs -/

/-- An entry of the `carriers` table. -/
structure Carrier where
  id : String
  name : String
  logo : String
  basePrice : ℚ
  estimatedDays : String
  deriving DecidableEq

/-- The table `carriers`. -/
def carriers : List Carrier :=
  [ { id := "ups", name := "UPS Worldwide", logo := "📮", basePrice := 2400, estimatedDays := "4-7" },
    { id := "dhl", name := "DHL Express", logo := "📦", basePrice := 2500, estimatedDays := "3-5" },
    { id := "fedex", name := "FedEx International", logo := "🚚", basePrice := 2300, estimatedDays := "4-6" },
    { id := "bluedart", name := "Blue Dart", logo := "✈️", basePrice := 1800, estimatedDays := "5-8" } ]

/-- An entry of the `deliveryOptions` table. -/
structure DeliveryOption where
  id : String
  name : String
  multiplier : ℚ
  days : String
  deriving DecidableEq

/-- The table `deliveryOptions`; the multipliers 1.5, 1.0 and 0.8 as rationals. -/
def deliveryOptions : List DeliveryOption :=
  [ { id := "express", name := "Express Delivery", multiplier := 3 / 2, days := "3-5" },
    { id := "standard", name := "Standard Delivery", multiplier := 1, days := "5-8" },
    { id := "economy", name := "Economy Delivery", multiplier := 4 / 5, days := "8-12" } ]

/-! ## Component state -/

/-- The `formData` state: the selected carrier id and delivery speed id. -/
structure FormData where
  carrier : String
  deliverySpeed : String
  deriving DecidableEq

/-- The initial `formData`. -/
def initialFormData : FormData :=
  { carrier := "ups", deliverySpeed := "standard" }

/-- The `pricing` state: the price breakdown. -/
structure Pricing where
  basePrice : ℚ
  deliveryCharge : ℚ
  customsClearance : ℚ
  insurance : ℚ
  subtotal : ℚ
  gst : ℚ
  total : ℚ
  deriving DecidableEq

/-- The initial `pricing`. -/
def initialPricing : Pricing :=
  { basePrice := 2400, deliveryCharge := 0, customsClearance := 450, insurance := 200,
    subtotal := 0, gst := 0, total := 0 }

/-- The pricing effect, run when the carrier or the delivery speed changes:
the `pricing` state after it, or the exception it throws. When a selection is
empty or matches no catalog entry the state is left as it was; reading
`shipment.insuranceRequired` of an absent shipment throws a TypeError. -/
def pricingEffect (formData : FormData) (shipment : ShipmentProp) (pricing : Pricing) :
    Except JSError Pricing :=
  if decide (formData.carrier ≠ "") && decide (formData.deliverySpeed ≠ "") then
    match carriers.find? (fun c => decide (c.id = formData.carrier)),
          deliveryOptions.find? (fun d => decide (d.id = formData.deliverySpeed)) with
    | some carrier, some delivery =>
      match shipment with
      | .object s =>
        let basePrice := carrier.basePrice
        let deliveryCharge := basePrice * delivery.multiplier
        let subtotal := basePrice + deliveryCharge + pricing.customsClearance +
          (if (s.get "insuranceRequired").truthy then pricing.insurance else 0)
        let gst := subtotal * (18 / 100)
        let total := subtotal + gst
        .ok { pricing with
              basePrice := basePrice, deliveryCharge := deliveryCharge,
              subtotal := subtotal, gst := gst, total := total }
      | _ => .error .typeError
    | _, _ => .ok pricing
  else
    .ok pricing

/-- The pricing states the component can be in: the initial one, and every
state a run of the pricing effect leaves, whatever the selection and the
shipment prop of that render. -/
inductive ReachablePricing : Pricing → Prop where
  | init : ReachablePricing initialPricing
  | step (formData : FormData) (shipment : ShipmentProp) (p q : Pricing) :
      ReachablePricing p → pricingEffect formData shipment p = .ok q → ReachablePricing q

/-! ## Eligibility -/

/-- The result of `checkCODEligibility`. -/
structure Verdict where
  eligible : Bool
  reason : String
  deriving DecidableEq

/-- The function `checkCODEligibility`. -/
def checkCODEligibility (shipment : ShipmentProp) : Verdict :=
  match shipment with
  | .undefined => { eligible := false, reason := "Shipment not found" }
  | .null => { eligible := false, reason := "Shipment not found" }
  | .object s =>
    let isCODPayment := (s.get "paymentTiming").strictEq (.str "COD")
    let isRoadOrCourier := arrayIncludes [.str "Road", .str "Courier"] (s.get "mode")
    let isDomestic := (s.get "shipmentType").strictEq (.str "Domestic")
    let noDangerousGoods := !(s.get "dangerousGoods").truthy
    if !isCODPayment then
      { eligible := false, reason := "Payment timing must be COD" }
    else if !isRoadOrCourier then
      { eligible := false, reason := "COD only available for Road/Courier modes" }
    else if !isDomestic then
      { eligible := false, reason := "COD only available for domestic shipments" }
    else if !noDangerousGoods then
      { eligible := false, reason := "Dangerous goods not allowed with COD" }
    else
      { eligible := true, reason := "Eligible for COD" }

/-- The function `isBookingEligible`: the value of the `&&` chain, which is
the absent shipment itself when the shipment is absent and a boolean
otherwise. -/
def isBookingEligible (shipment : ShipmentProp) : JSVal :=
  match shipment with
  | .undefined => .undefined
  | .null => .null
  | .object s =>
    .bool ((s.get "aiComplianceStatus").strictEq (.str "cleared") &&
      (s.get "brokerReviewStatus").strictEq (.str "approved") &&
      (s.get "status").strictEq (.str "token-generated") &&
      !(s.get "token").strictEq .null &&
      !(s.get "bookingStatus").strictEq (.str "booked"))

/-! ## Booking click -/

/-- The `paymentContext` record built by `handleBookingClick`. -/
structure PaymentContext where
  mode : JSVal
  shipmentType : JSVal
  billTo : JSVal
  paymentTiming : JSVal
  paymentStatus : JSVal
  serviceLevel : JSVal
  value : JSVal
  codAllowed : Bool
  selectedCarrier : String
  selectedDeliverySpeed : String
  pricing : Pricing
  deriving DecidableEq

/-- A property value of the navigation payload: a shipment property, or the
payment context. -/
inductive PayloadVal where
  | prim (v : JSVal)
  | context (c : PaymentContext)
  deriving DecidableEq

/-- The navigation payload, an object. -/
structure Payload where
  props : List (String × PayloadVal)
  deriving DecidableEq

/-- Property read on a payload. -/
def Payload.get (o : Payload) (k : String) : PayloadVal :=
  match o.props.lookup k with
  | some v => v
  | none => .prim .undefined

/-- The object `{ ...shipment, paymentContext }`. -/
def spreadWithContext (shipment : Shipment) (paymentContext : PaymentContext) : Payload :=
  ⟨("paymentContext", .context paymentContext) ::
    shipment.props.map (fun p => (p.1, PayloadVal.prim p.2))⟩

/-- One call `onNavigate(route, payload)`. -/
structure NavCall where
  route : String
  payload : Payload
  deriving DecidableEq

/-- The payment context `handleBookingClick` builds for a present shipment. -/
def buildPaymentContext (s : Shipment) (formData : FormData) (pricing : Pricing) :
    PaymentContext :=
  let codEligibility := checkCODEligibility (.object s)
  { mode := s.get "mode",
    shipmentType := s.get "shipmentType",
    billTo := s.get "billTo",
    paymentTiming := s.get "paymentTiming",
    paymentStatus := s.get "paymentStatus",
    serviceLevel := s.get "serviceLevel",
    value := s.get "value",
    codAllowed := codEligibility.eligible,
    selectedCarrier := formData.carrier,
    selectedDeliverySpeed := formData.deliverySpeed,
    pricing := pricing }

/-- The function `handleBookingClick`: the calls of `onNavigate` it makes, in
order, or the exception it throws. -/
def handleBookingClick (shipment : ShipmentProp) (formData : FormData) (pricing : Pricing) :
    Except JSError (List NavCall) :=
  if !(isBookingEligible shipment).truthy then
    .ok []
  else
    match shipment with
    | .object s =>
      let paymentContext := buildPaymentContext s formData pricing
      if (s.get "billTo").strictEq (.str "Consignee") &&
          !(s.get "paymentTiming").strictEq (.str "COD") then
        .ok [{ route := "request-payment", payload := spreadWithContext s paymentContext }]
      else
        .ok [{ route := "payment", payload := spreadWithContext s paymentContext }]
    | _ => .error .typeError

/-! ## Booking eligibility alert -/

/-- One line of the "Cannot Book This Shipment" list, with the status value it
shows. -/
inductive ReasonItem where
  | aiCompliance (status : JSVal)
  | brokerReview (status : JSVal)
  | shipmentStatus (status : JSVal)
  | noToken
  deriving DecidableEq

/-- The booking eligibility alert of the rendered page, for a present
shipment: `none` when the alert is not shown, else the lines of its list. -/
def eligibilityAlert (s : Shipment) : Option (List ReasonItem) :=
  let bookingEligible := isBookingEligible (.object s)
  if !bookingEligible.truthy then
    some ((if !(s.get "aiComplianceStatus").strictEq (.str "cleared")
            then [.aiCompliance (s.get "aiComplianceStatus")] else []) ++
          (if !(s.get "brokerReviewStatus").strictEq (.str "approved")
            then [.brokerReview (s.get "brokerReviewStatus")] else []) ++
          (if !(s.get "status").strictEq (.str "token-generated")
            then [.shipmentStatus (s.get "status")] else []) ++
          (if !(s.get "token").truthy then [.noToken] else []))
  else
    none

/-- The values of the five conditions `isBookingEligible` tests on a present
shipment, in the order of the source. -/
def bookingConditions (s : Shipment) : List Bool :=
  [ (s.get "aiComplianceStatus").strictEq (.str "cleared"),
    (s.get "brokerReviewStatus").strictEq (.str "approved"),
    (s.get "status").strictEq (.str "token-generated"),
    !(s.get "token").strictEq .null,
    !(s.get "bookingStatus").strictEq (.str "booked") ]

/-! ## Sample shipments -/

/-- A shipment that is eligible for COD and for booking. -/
def sampleShipment : Shipment :=
  ⟨[ ("id", .str "SHP-001"),
     ("token", .str "TKN-001"),
     ("mode", .str "Road"),
     ("shipmentType", .str "Domestic"),
     ("serviceLevel", .str "Standard"),
     ("billTo", .str "Shipper"),
     ("paymentTiming", .str "COD"),
     ("paymentStatus", .str "pending"),
     ("declaredValue", .num 5000),
     ("aiComplianceStatus", .str "cleared"),
     ("brokerReviewStatus", .str "approved"),
     ("status", .str "token-generated"),
     ("bookingStatus", .str "unbooked"),
     ("dangerousGoods", .bool false),
     ("insuranceRequired", .bool true) ]⟩

/-- The sample shipment billed to the consignee and prepaid. -/
def consigneeShipment : Shipment :=
  (sampleShipment.set "billTo" (.str "Consignee")).set "paymentTiming" (.str "Prepaid")

/-- The sample shipment once booked. -/
def bookedShipment : Shipment :=
  sampleShipment.set "bookingStatus" (.str "booked")

/-- The sample shipment with compliance pending and an empty token. -/
def pendingShipment : Shipment :=
  (sampleShipment.set "aiComplianceStatus" (.str "pending")).set "token" (.str "")

/-! ## Booking button -/

/-- The function `isBookingDisabled`, on a present shipment: the component
calls it only in the page it renders for a present shipment. -/
def isBookingDisabled (s : Shipment) : Bool :=
  (s.get "bookingStatus").strictEq (.str "booked") ||
    ((s.get "paymentStatus").strictEq (.str "paid") &&
      (s.get "bookingStatus").strictEq (.str "booked")) ||
    !(s.get "token").truthy

/-- The simplified predicate of the specification: `bookingStatus` is 'booked',
or the token is falsy. -/
def isBookingDisabledSimplified (s : Shipment) : Bool :=
  (s.get "bookingStatus").strictEq (.str "booked") || !(s.get "token").truthy

/-- The `disabled` attribute of the booking button,
`isBookingDisabled() || !bookingEligible`. -/
def bookingButtonDisabled (s : Shipment) : Bool :=
  let bookingEligible := isBookingEligible (.object s)
  isBookingDisabled s || !bookingEligible.truthy

/-- The label of the booking button. -/
def bookingButtonLabel (s : Shipment) : String :=
  if (s.get "bookingStatus").strictEq (.str "booked") then "Already Booked"
  else "Proceed to Payment"

/-- A shipment as the sample one, without a property `token`. -/
def missingTokenShipment : Shipment :=
  ⟨[ ("id", .str "SHP-002"),
     ("mode", .str "Road"),
     ("shipmentType", .str "Domestic"),
     ("serviceLevel", .str "Standard"),
     ("billTo", .str "Shipper"),
     ("paymentTiming", .str "COD"),
     ("paymentStatus", .str "pending"),
     ("declaredValue", .num 5000),
     ("aiComplianceStatus", .str "cleared"),
     ("brokerReviewStatus", .str "approved"),
     ("status", .str "token-generated"),
     ("bookingStatus", .str "unbooked"),
     ("dangerousGoods", .bool false),
     ("insuranceRequired", .bool true) ]⟩

/-- The sample shipment with the empty string as token. -/
def emptyTokenShipment : Shipment :=
  sampleShipment.set "token" (.str "")

/-! ## Lemmas on JavaScript values and objects -/

theorem JSVal.strictEq_str (v : JSVal) (s : String) :
    v.strictEq (.str s) = true ↔ v = .str s := by
  cases v <;> simp [JSVal.strictEq]

theorem JSVal.strictEq_null (v : JSVal) : v.strictEq .null = true ↔ v = .null := by
  cases v <;> simp [JSVal.strictEq]

theorem arrayIncludes_pair (a b : String) (v : JSVal) :
    arrayIncludes [.str a, .str b] v = true ↔ v = .str a ∨ v = .str b := by
  simp only [arrayIncludes, JSVal.sameValueZero, List.any_cons, List.any_nil, Bool.or_false,
    Bool.or_eq_true, decide_eq_true_eq]
  constructor <;> rintro (h | h) <;> simp [h]

theorem JSObject.get_set_same (o : JSObject) (k : String) (v : JSVal) :
    (o.set k v).get k = v := by
  simp only [JSObject.get, JSObject.set, List.lookup_cons, beq_self_eq_true]

theorem JSObject.get_set_ne (o : JSObject) (k j : String) (v : JSVal) (h : j ≠ k) :
    (o.set k v).get j = o.get j := by
  have hb : (j == k) = false := by simpa using h
  simp only [JSObject.get, JSObject.set, List.lookup_cons, hb]

/-! ## Cash on delivery eligibility -/

theorem checkCODEligibility_object (s : Shipment) :
    checkCODEligibility (.object s) =
      if s.get "paymentTiming" ≠ .str "COD" then
        { eligible := false, reason := "Payment timing must be COD" }
      else if ¬ (s.get "mode" = .str "Road" ∨ s.get "mode" = .str "Courier") then
        { eligible := false, reason := "COD only available for Road/Courier modes" }
      else if s.get "shipmentType" ≠ .str "Domestic" then
        { eligible := false, reason := "COD only available for domestic shipments" }
      else if (s.get "dangerousGoods").truthy = true then
        { eligible := false, reason := "Dangerous goods not allowed with COD" }
      else
        { eligible := true, reason := "Eligible for COD" } := by
  have e1 : (s.get "paymentTiming").strictEq (.str "COD") =
      decide (s.get "paymentTiming" = .str "COD") :=
    Bool.eq_iff_iff.mpr (by rw [JSVal.strictEq_str, decide_eq_true_iff])
  have e2 : arrayIncludes [.str "Road", .str "Courier"] (s.get "mode") =
      decide (s.get "mode" = .str "Road" ∨ s.get "mode" = .str "Courier") :=
    Bool.eq_iff_iff.mpr (by rw [arrayIncludes_pair, decide_eq_true_iff])
  have e3 : (s.get "shipmentType").strictEq (.str "Domestic") =
      decide (s.get "shipmentType" = .str "Domestic") :=
    Bool.eq_iff_iff.mpr (by rw [JSVal.strictEq_str, decide_eq_true_iff])
  simp only [checkCODEligibility, e1, e2, e3]
  by_cases h1 : s.get "paymentTiming" = .str "COD"
  · by_cases h2 : s.get "mode" = .str "Road" ∨ s.get "mode" = .str "Courier"
    · by_cases h3 : s.get "shipmentType" = .str "Domestic"
      · cases h4 : (s.get "dangerousGoods").truthy <;> simp [h1, h2, h3]
      · simp [h1, h2, h3]
    · simp [h1, h2]
  · simp [h1]

theorem checkCODEligibility_object_eligible (s : Shipment) :
    (checkCODEligibility (.object s)).eligible = true ↔
      s.get "paymentTiming" = .str "COD" ∧
      (s.get "mode" = .str "Road" ∨ s.get "mode" = .str "Courier") ∧
      s.get "shipmentType" = .str "Domestic" ∧
      (s.get "dangerousGoods").truthy = false := by
  rw [checkCODEligibility_object]
  by_cases h1 : s.get "paymentTiming" = .str "COD"
  · by_cases h2 : s.get "mode" = .str "Road" ∨ s.get "mode" = .str "Courier"
    · by_cases h3 : s.get "shipmentType" = .str "Domestic"
      · cases h4 : (s.get "dangerousGoods").truthy <;> simp [h1, h2, h3]
      · simp [h1, h2, h3]
    · simp [h1, h2]
  · simp [h1]

/-- C1: for every shipment prop, absent ones included, the verdict of
`checkCODEligibility` has `eligible = true` exactly when the shipment is
present, `paymentTiming` is 'COD', `mode` is 'Road' or 'Courier',
`shipmentType` is 'Domestic' and `dangerousGoods` is falsy. -/
theorem checkCODEligibility_eligible_iff (shipment : ShipmentProp) :
    (checkCODEligibility shipment).eligible = true ↔
      ∃ s, shipment = .object s ∧
        s.get "paymentTiming" = .str "COD" ∧
        (s.get "mode" = .str "Road" ∨ s.get "mode" = .str "Courier") ∧
        s.get "shipmentType" = .str "Domestic" ∧
        (s.get "dangerousGoods").truthy = false := by
  cases shipment with
  | undefined => simp [checkCODEligibility]
  | null => simp [checkCODEligibility]
  | object s =>
    simp only [ShipmentProp.object.injEq, exists_eq_left']
    exact checkCODEligibility_object_eligible s

/-- The example of C1: a shipment with `paymentTiming` COD, `mode` Road,
`shipmentType` Domestic and `dangerousGoods` false is eligible. -/
theorem checkCODEligibility_eligible_iff_witness :
    (checkCODEligibility (.object sampleShipment)).eligible = true :=
  (checkCODEligibility_eligible_iff (.object sampleShipment)).mpr
    ⟨sampleShipment, rfl, by decide, Or.inl (by decide), by decide, by decide⟩

/-- C2: `checkCODEligibility` reports the reason of the first failing check,
in the order absent shipment, `paymentTiming`, `mode`, `shipmentType`,
`dangerousGoods`, and 'Eligible for COD' when none fails; and from an eligible
shipment, giving one of the four fields a disqualifying value `v` yields
`eligible = false` with the reason of that field. -/
theorem checkCODEligibility_first_failure :
    checkCODEligibility .undefined = { eligible := false, reason := "Shipment not found" } ∧
    checkCODEligibility .null = { eligible := false, reason := "Shipment not found" } ∧
    (∀ s : Shipment, checkCODEligibility (.object s) =
      if s.get "paymentTiming" ≠ .str "COD" then
        { eligible := false, reason := "Payment timing must be COD" }
      else if ¬ (s.get "mode" = .str "Road" ∨ s.get "mode" = .str "Courier") then
        { eligible := false, reason := "COD only available for Road/Courier modes" }
      else if s.get "shipmentType" ≠ .str "Domestic" then
        { eligible := false, reason := "COD only available for domestic shipments" }
      else if (s.get "dangerousGoods").truthy = true then
        { eligible := false, reason := "Dangerous goods not allowed with COD" }
      else
        { eligible := true, reason := "Eligible for COD" }) ∧
    (∀ (s : Shipment) (v : JSVal), (checkCODEligibility (.object s)).eligible = true →
      (v ≠ .str "COD" →
        checkCODEligibility (.object (s.set "paymentTiming" v)) =
          { eligible := false, reason := "Payment timing must be COD" }) ∧
      (v ≠ .str "Road" → v ≠ .str "Courier" →
        checkCODEligibility (.object (s.set "mode" v)) =
          { eligible := false, reason := "COD only available for Road/Courier modes" }) ∧
      (v ≠ .str "Domestic" →
        checkCODEligibility (.object (s.set "shipmentType" v)) =
          { eligible := false, reason := "COD only available for domestic shipments" }) ∧
      (v.truthy = true →
        checkCODEligibility (.object (s.set "dangerousGoods" v)) =
          { eligible := false, reason := "Dangerous goods not allowed with COD" })) := by
  refine ⟨rfl, rfl, checkCODEligibility_object, ?_⟩
  intro s v h
  obtain ⟨h1, h2, h3, h4⟩ := (checkCODEligibility_object_eligible s).mp h
  refine ⟨fun hv => ?_, fun hv hv2 => ?_, fun hv => ?_, fun hv => ?_⟩
  · rw [checkCODEligibility_object, JSObject.get_set_same]
    simp [hv]
  · rw [checkCODEligibility_object, JSObject.get_set_same,
      JSObject.get_set_ne _ _ "paymentTiming" _ (by decide)]
    simp [hv, hv2, h1]
  · rw [checkCODEligibility_object, JSObject.get_set_same,
      JSObject.get_set_ne _ _ "paymentTiming" _ (by decide),
      JSObject.get_set_ne _ _ "mode" _ (by decide)]
    simp [hv, h1, h2]
  · rw [checkCODEligibility_object, JSObject.get_set_same,
      JSObject.get_set_ne _ _ "paymentTiming" _ (by decide),
      JSObject.get_set_ne _ _ "mode" _ (by decide),
      JSObject.get_set_ne _ _ "shipmentType" _ (by decide)]
    simp [hv, h1, h2, h3]

/-- The single-field changes of C2 on the sample shipment: Prepaid, Air,
International, dangerous goods. -/
theorem checkCODEligibility_first_failure_witness :
    (checkCODEligibility (.object sampleShipment)).eligible = true ∧
    checkCODEligibility (.object (sampleShipment.set "paymentTiming" (.str "Prepaid"))) =
      { eligible := false, reason := "Payment timing must be COD" } ∧
    checkCODEligibility (.object (sampleShipment.set "mode" (.str "Air"))) =
      { eligible := false, reason := "COD only available for Road/Courier modes" } ∧
    checkCODEligibility (.object (sampleShipment.set "shipmentType" (.str "International"))) =
      { eligible := false, reason := "COD only available for domestic shipments" } ∧
    checkCODEligibility (.object (sampleShipment.set "dangerousGoods" (.bool true))) =
      { eligible := false, reason := "Dangerous goods not allowed with COD" } :=
  have h : (checkCODEligibility (.object sampleShipment)).eligible = true := by decide
  ⟨h,
    (checkCODEligibility_first_failure.2.2.2 sampleShipment (.str "Prepaid") h).1 (by decide),
    (checkCODEligibility_first_failure.2.2.2 sampleShipment (.str "Air") h).2.1
      (by decide) (by decide),
    (checkCODEligibility_first_failure.2.2.2 sampleShipment (.str "International") h).2.2.1
      (by decide),
    (checkCODEligibility_first_failure.2.2.2 sampleShipment (.bool true) h).2.2.2 rfl⟩

/-! ## Booking eligibility -/

theorem isBookingEligible_object (s : Shipment) :
    (isBookingEligible (.object s)).truthy = true ↔
      s.get "aiComplianceStatus" = .str "cleared" ∧
      s.get "brokerReviewStatus" = .str "approved" ∧
      s.get "status" = .str "token-generated" ∧
      s.get "token" ≠ .null ∧
      s.get "bookingStatus" ≠ .str "booked" := by
  simp only [isBookingEligible, JSVal.truthy, ne_eq, ← JSVal.strictEq_str,
    ← JSVal.strictEq_null]
  simp [and_assoc]

theorem truthy_false_of_not {v : JSVal} (h : ¬ v.truthy = true) : v.truthy = false := by
  simpa using h

/-- C3: for every shipment prop, absent ones included, the result of
`isBookingEligible` is truthy exactly when the shipment is present,
`aiComplianceStatus` is 'cleared', `brokerReviewStatus` is 'approved', `status`
is 'token-generated', `token` is not null and `bookingStatus` is not 'booked',
and then it is the boolean true; and from an eligible shipment, making any
single one of the five conditions fail makes the result falsy. -/
theorem isBookingEligible_truthy_iff :
    (∀ shipment : ShipmentProp, (isBookingEligible shipment).truthy = true ↔
      ∃ s, shipment = .object s ∧
        s.get "aiComplianceStatus" = .str "cleared" ∧
        s.get "brokerReviewStatus" = .str "approved" ∧
        s.get "status" = .str "token-generated" ∧
        s.get "token" ≠ .null ∧
        s.get "bookingStatus" ≠ .str "booked") ∧
    (∀ shipment : ShipmentProp, (isBookingEligible shipment).truthy = true ↔
      isBookingEligible shipment = .bool true) ∧
    (∀ (s : Shipment) (v : JSVal), (isBookingEligible (.object s)).truthy = true →
      (v ≠ .str "cleared" →
        (isBookingEligible (.object (s.set "aiComplianceStatus" v))).truthy = false) ∧
      (v ≠ .str "approved" →
        (isBookingEligible (.object (s.set "brokerReviewStatus" v))).truthy = false) ∧
      (v ≠ .str "token-generated" →
        (isBookingEligible (.object (s.set "status" v))).truthy = false) ∧
      (isBookingEligible (.object (s.set "token" .null))).truthy = false ∧
      (isBookingEligible (.object (s.set "bookingStatus" (.str "booked")))).truthy = false) := by
  refine ⟨fun shipment => ?_, fun shipment => ?_, fun s v _ => ⟨fun hv => ?_, fun hv => ?_,
    fun hv => ?_, ?_, ?_⟩⟩
  · cases shipment with
    | undefined => simp [isBookingEligible, JSVal.truthy]
    | null => simp [isBookingEligible, JSVal.truthy]
    | object s =>
      simp only [ShipmentProp.object.injEq, exists_eq_left']
      exact isBookingEligible_object s
  · cases shipment <;> simp [isBookingEligible, JSVal.truthy]
  · refine truthy_false_of_not fun h => ?_
    have h1 := ((isBookingEligible_object _).mp h).1
    rw [JSObject.get_set_same] at h1
    exact hv h1
  · refine truthy_false_of_not fun h => ?_
    have h1 := ((isBookingEligible_object _).mp h).2.1
    rw [JSObject.get_set_same] at h1
    exact hv h1
  · refine truthy_false_of_not fun h => ?_
    have h1 := ((isBookingEligible_object _).mp h).2.2.1
    rw [JSObject.get_set_same] at h1
    exact hv h1
  · refine truthy_false_of_not fun h => ?_
    have h1 := ((isBookingEligible_object _).mp h).2.2.2.1
    rw [JSObject.get_set_same] at h1
    exact h1 rfl
  · refine truthy_false_of_not fun h => ?_
    have h1 := ((isBookingEligible_object _).mp h).2.2.2.2
    rw [JSObject.get_set_same] at h1
    exact h1 rfl

/-- C3 on the sample shipment: it is eligible, and each single violation
(pending compliance, rejected review, draft status, null token, booked) makes
the result falsy. -/
theorem isBookingEligible_truthy_iff_witness :
    (isBookingEligible (.object sampleShipment)).truthy = true ∧
    (isBookingEligible
      (.object (sampleShipment.set "aiComplianceStatus" (.str "pending")))).truthy = false ∧
    (isBookingEligible
      (.object (sampleShipment.set "brokerReviewStatus" (.str "rejected")))).truthy = false ∧
    (isBookingEligible (.object (sampleShipment.set "status" (.str "draft")))).truthy = false ∧
    (isBookingEligible (.object (sampleShipment.set "token" .null))).truthy = false ∧
    (isBookingEligible
      (.object (sampleShipment.set "bookingStatus" (.str "booked")))).truthy = false :=
  have h : (isBookingEligible (.object sampleShipment)).truthy = true :=
    (isBookingEligible_truthy_iff.1 (.object sampleShipment)).mpr
      ⟨sampleShipment, rfl, by decide, by decide, by decide, by decide, by decide⟩
  ⟨h,
    (isBookingEligible_truthy_iff.2.2 sampleShipment (.str "pending") h).1 (by decide),
    (isBookingEligible_truthy_iff.2.2 sampleShipment (.str "rejected") h).2.1 (by decide),
    (isBookingEligible_truthy_iff.2.2 sampleShipment (.str "draft") h).2.2.1 (by decide),
    (isBookingEligible_truthy_iff.2.2 sampleShipment .null h).2.2.2.1,
    (isBookingEligible_truthy_iff.2.2 sampleShipment .null h).2.2.2.2⟩

/-! ## Pricing -/

/-- The breakdown the pricing effect stores for a carrier and a delivery
option found in the catalogs. -/
theorem pricingEffect_valid (c : Carrier) (d : DeliveryOption) (s : Shipment) (prev : Pricing)
    (hc : c ∈ carriers) (hd : d ∈ deliveryOptions) :
    pricingEffect ⟨c.id, d.id⟩ (.object s) prev =
      .ok { prev with
            basePrice := c.basePrice,
            deliveryCharge := c.basePrice * d.multiplier,
            subtotal := c.basePrice + c.basePrice * d.multiplier + prev.customsClearance +
              (if (s.get "insuranceRequired").truthy then prev.insurance else 0),
            gst := (c.basePrice + c.basePrice * d.multiplier + prev.customsClearance +
              (if (s.get "insuranceRequired").truthy then prev.insurance else 0)) * (18 / 100),
            total := (c.basePrice + c.basePrice * d.multiplier + prev.customsClearance +
              (if (s.get "insuranceRequired").truthy then prev.insurance else 0)) +
              (c.basePrice + c.basePrice * d.multiplier + prev.customsClearance +
              (if (s.get "insuranceRequired").truthy then prev.insurance else 0)) * (18 / 100) } := by
  simp only [carriers, deliveryOptions, List.mem_cons, List.mem_singleton, List.not_mem_nil,
    or_false] at hc hd
  rcases hc with rfl | rfl | rfl | rfl <;> rcases hd with rfl | rfl | rfl <;> rfl

/-- The pricing effect keeps the fields `customsClearance` and `insurance`. -/
theorem pricingEffect_keeps (formData : FormData) (shipment : ShipmentProp) (p q : Pricing)
    (h : pricingEffect formData shipment p = .ok q) :
    q.customsClearance = p.customsClearance ∧ q.insurance = p.insurance := by
  unfold pricingEffect at h
  split at h
  · split at h
    · split at h
      · cases h
        exact ⟨rfl, rfl⟩
      · cases h
    · cases h
      exact ⟨rfl, rfl⟩
  · cases h
    exact ⟨rfl, rfl⟩

/-- In every reachable pricing state the customs clearance fee is 450 and the
insurance fee is 200. -/
theorem ReachablePricing.fees {p : Pricing} (h : ReachablePricing p) :
    p.customsClearance = 450 ∧ p.insurance = 200 := by
  induction h with
  | init => exact ⟨rfl, rfl⟩
  | step formData shipment p q _ hq ih =>
    obtain ⟨h1, h2⟩ := pricingEffect_keeps formData shipment p q hq
    exact ⟨h1.trans ih.1, h2.trans ih.2⟩

/-- C4: in exact arithmetic, for every carrier `c` of the 4-entry catalog,
every delivery option `d` of the 3-entry catalog, every present shipment
(whatever its `insuranceRequired`) and every reachable previous breakdown, the
pricing effect stores a breakdown with `basePrice = c.basePrice`,
`deliveryCharge = c.basePrice * d.multiplier`,
`subtotal = basePrice + deliveryCharge + 450 + (200 if insuranceRequired else 0)`,
`gst = subtotal * 0.18` and `total = subtotal + gst`; and the stored breakdown
is the same whatever the previous `basePrice`, `deliveryCharge`, `subtotal`,
`gst` and `total` were. -/
theorem pricingEffect_recomputes (c : Carrier) (d : DeliveryOption) (s : Shipment)
    (prev : Pricing) (hc : c ∈ carriers) (hd : d ∈ deliveryOptions)
    (hprev : ReachablePricing prev) :
    carriers.length = 4 ∧ deliveryOptions.length = 3 ∧
    ∃ p, pricingEffect ⟨c.id, d.id⟩ (.object s) prev = .ok p ∧
      p.basePrice = c.basePrice ∧
      p.deliveryCharge = c.basePrice * d.multiplier ∧
      p.subtotal = p.basePrice + p.deliveryCharge + 450 +
        (if (s.get "insuranceRequired").truthy then 200 else 0) ∧
      p.gst = p.subtotal * (18 / 100) ∧
      p.total = p.subtotal + p.gst ∧
      ∀ b dc st g t : ℚ,
        pricingEffect ⟨c.id, d.id⟩ (.object s)
          { prev with basePrice := b, deliveryCharge := dc, subtotal := st, gst := g,
                      total := t } = .ok p := by
  refine ⟨rfl, rfl, _, pricingEffect_valid c d s prev hc hd, rfl, rfl, ?_, rfl, rfl, ?_⟩
  · simp only [hprev.fees.1, hprev.fees.2]
  · intro b dc st g t
    exact pricingEffect_valid c d s _ hc hd

/-- The example of C4: dhl (2500) with express (1.5) and `insuranceRequired`
true gives deliveryCharge 3750, subtotal 6900, gst 1242 and total 8142. -/
theorem pricingEffect_recomputes_witness :
    (sampleShipment.get "insuranceRequired").truthy = true ∧
    ∃ p, pricingEffect ⟨"dhl", "express"⟩ (.object sampleShipment) initialPricing = .ok p ∧
      p.basePrice = 2500 ∧ p.deliveryCharge = 3750 ∧ p.subtotal = 6900 ∧ p.gst = 1242 ∧
      p.total = 8142 := by
  have hi : (sampleShipment.get "insuranceRequired").truthy = true := by decide
  obtain ⟨_, _, p, hp, h1, h2, h3, h4, h5, _⟩ :=
    pricingEffect_recomputes
      { id := "dhl", name := "DHL Express", logo := "📦", basePrice := 2500,
        estimatedDays := "3-5" }
      { id := "express", name := "Express Delivery", multiplier := 3 / 2, days := "3-5" }
      sampleShipment initialPricing (by simp [carriers]) (by simp [deliveryOptions])
      ReachablePricing.init
  rw [hi] at h3
  have e2 : p.deliveryCharge = 3750 := by rw [h2]; norm_num
  have e3 : p.subtotal = 6900 := by rw [h3, h1, e2]; norm_num
  have e4 : p.gst = 1242 := by rw [h4, e3]; norm_num
  have e5 : p.total = 8142 := by rw [h5, e3, e4]; norm_num
  exact ⟨hi, p, hp, h1, e2, e3, e4, e5⟩

/-- C5 fails on the code: the carrier id "xyz" matches no catalog entry, and
the pricing effect completes without an error, leaving the stored breakdown. -/
theorem pricingEffect_unknown_carrier_no_error :
    (∀ c ∈ carriers, c.id ≠ "xyz") ∧
    pricingEffect ⟨"xyz", "standard"⟩ (.object sampleShipment) initialPricing =
      .ok initialPricing := by
  refine ⟨?_, rfl⟩
  intro c hc
  simp only [carriers, List.mem_cons, List.mem_singleton, List.not_mem_nil, or_false] at hc
  rcases hc with rfl | rfl | rfl | rfl <;> decide

/-- C5 as amended: for a carrier id that matches no entry of the carrier
catalog, or a delivery speed id that matches no entry of the delivery option
catalog, the pricing effect throws nothing and leaves the stored breakdown as
it was, for every shipment prop and every previous breakdown. -/
theorem pricingEffect_unknown_selection (formData : FormData) (shipment : ShipmentProp)
    (prev : Pricing)
    (h : (∀ c ∈ carriers, c.id ≠ formData.carrier) ∨
      (∀ d ∈ deliveryOptions, d.id ≠ formData.deliverySpeed)) :
    pricingEffect formData shipment prev = .ok prev := by
  unfold pricingEffect
  split
  · rcases h with h | h
    · have hn : carriers.find? (fun c => decide (c.id = formData.carrier)) = none := by
        rw [List.find?_eq_none]
        intro c hc
        simpa using h c hc
      rw [hn]
    · have hn : deliveryOptions.find? (fun d => decide (d.id = formData.deliverySpeed)) =
          none := by
        rw [List.find?_eq_none]
        intro d hd
        simpa using h d hd
      rw [hn]
      split <;> first | rfl | simp_all
  · rfl

/-- C5 as amended, at the carrier id "xyz" and an absent shipment. -/
theorem pricingEffect_unknown_selection_witness :
    pricingEffect ⟨"xyz", "standard"⟩ .null initialPricing = .ok initialPricing :=
  pricingEffect_unknown_selection ⟨"xyz", "standard"⟩ .null initialPricing
    (Or.inl (by decide))

/-- C6: for every valid carrier and delivery option, every shipment and every
reachable previous breakdown, the breakdown computed with `insuranceRequired`
true and the one computed with `insuranceRequired` false, all else equal,
differ in `subtotal` by exactly 200 and in `total` by exactly 236, and have the
same `basePrice` and `deliveryCharge`: the insurance fee is in the subtotal
exactly when `insuranceRequired` is true. -/
theorem pricingEffect_insurance_flag (c : Carrier) (d : DeliveryOption) (s : Shipment)
    (prev : Pricing) (hc : c ∈ carriers) (hd : d ∈ deliveryOptions)
    (hprev : ReachablePricing prev) :
    ∃ pT pF,
      pricingEffect ⟨c.id, d.id⟩ (.object (s.set "insuranceRequired" (.bool true))) prev =
        .ok pT ∧
      pricingEffect ⟨c.id, d.id⟩ (.object (s.set "insuranceRequired" (.bool false))) prev =
        .ok pF ∧
      pT.subtotal = pT.basePrice + pT.deliveryCharge + 450 + 200 ∧
      pF.subtotal = pF.basePrice + pF.deliveryCharge + 450 ∧
      pT.subtotal - pF.subtotal = 200 ∧
      pT.total - pF.total = 236 ∧
      pT.basePrice = pF.basePrice ∧
      pT.deliveryCharge = pF.deliveryCharge := by
  refine ⟨_, _, pricingEffect_valid c d _ prev hc hd, pricingEffect_valid c d _ prev hc hd,
    ?_, ?_, ?_, ?_, rfl, rfl⟩ <;>
    simp only [JSObject.get_set_same, JSVal.truthy, hprev.fees.1, hprev.fees.2, if_true,
      Bool.false_eq_true, if_false] <;>
    ring

/-- C6 at ups with standard delivery, from the initial breakdown: subtotals
5450 and 5250, totals 6431 and 6195. -/
theorem pricingEffect_insurance_flag_witness :
    ∃ pT pF,
      pricingEffect ⟨"ups", "standard"⟩
        (.object (sampleShipment.set "insuranceRequired" (.bool true))) initialPricing =
        .ok pT ∧
      pricingEffect ⟨"ups", "standard"⟩
        (.object (sampleShipment.set "insuranceRequired" (.bool false))) initialPricing =
        .ok pF ∧
      pT.subtotal - pF.subtotal = 200 ∧ pT.total - pF.total = 236 := by
  obtain ⟨pT, pF, hT, hF, _, _, h1, h2, _, _⟩ :=
    pricingEffect_insurance_flag
      { id := "ups", name := "UPS Worldwide", logo := "📮", basePrice := 2400,
        estimatedDays := "4-7" }
      { id := "standard", name := "Standard Delivery", multiplier := 1, days := "5-8" }
      sampleShipment initialPricing (by simp [carriers]) (by simp [deliveryOptions])
      ReachablePricing.init
  exact ⟨pT, pF, hT, hF, h1, h2⟩

/-- C7 fails on the code: for ups with standard delivery and
`insuranceRequired` false, the stored breakdown has `insurance` 200, not 0, and
its `subtotal` 5250 is not the sum 5450 of its fields `basePrice`,
`deliveryCharge`, `customsClearance` and `insurance`. -/
theorem pricingEffect_insurance_field_not_charged :
    ((sampleShipment.set "insuranceRequired" (.bool false)).get "insuranceRequired").truthy =
      false ∧
    ∃ p, pricingEffect ⟨"ups", "standard"⟩
        (.object (sampleShipment.set "insuranceRequired" (.bool false))) initialPricing =
        .ok p ∧
      p.insurance = 200 ∧ p.insurance ≠ 0 ∧ p.subtotal = 5250 ∧
      p.subtotal ≠ p.basePrice + p.deliveryCharge + p.customsClearance + p.insurance := by
  refine ⟨by decide, _, rfl, rfl, ?_, ?_, ?_⟩
  · show (200 : ℚ) ≠ 0
    norm_num
  · simp only [JSObject.get_set_same, JSVal.truthy, initialPricing]
    norm_num
  · simp only [JSObject.get_set_same, JSVal.truthy, initialPricing]
    norm_num

/-- C7 as amended: for every valid selection, every present shipment and every
reachable previous breakdown, the stored breakdown has `customsClearance` 450
and `insurance` 200, the fixed fee, whatever `insuranceRequired` is; the amount
charged is `insurance` when `insuranceRequired` is truthy and 0 otherwise, so
`subtotal = basePrice + deliveryCharge + customsClearance + (insurance if
insuranceRequired else 0)` over the fields of the breakdown. -/
theorem pricingEffect_insurance_field (c : Carrier) (d : DeliveryOption) (s : Shipment)
    (prev : Pricing) (hc : c ∈ carriers) (hd : d ∈ deliveryOptions)
    (hprev : ReachablePricing prev) :
    ∃ p, pricingEffect ⟨c.id, d.id⟩ (.object s) prev = .ok p ∧
      p.customsClearance = 450 ∧
      p.insurance = 200 ∧
      p.subtotal = p.basePrice + p.deliveryCharge + p.customsClearance +
        (if (s.get "insuranceRequired").truthy then p.insurance else 0) ∧
      p.gst = p.subtotal * (18 / 100) ∧
      p.total = p.subtotal + p.gst :=
  ⟨_, pricingEffect_valid c d s prev hc hd, hprev.fees.1, hprev.fees.2, rfl, rfl, rfl⟩

/-- The example of C7 as the code computes it: ups with standard delivery and
`insuranceRequired` false gives basePrice 2400, deliveryCharge 2400,
customsClearance 450, insurance 200, subtotal 5250, gst 945, total 6195. -/
theorem pricingEffect_insurance_field_witness :
    ∃ p, pricingEffect ⟨"ups", "standard"⟩
        (.object (sampleShipment.set "insuranceRequired" (.bool false))) initialPricing =
        .ok p ∧
      p.basePrice = 2400 ∧ p.deliveryCharge = 2400 ∧ p.customsClearance = 450 ∧
      p.insurance = 200 ∧ p.subtotal = 5250 ∧ p.gst = 945 ∧ p.total = 6195 := by
  obtain ⟨p, hp, h1, h2, h3, h4, h5⟩ :=
    pricingEffect_insurance_field
      { id := "ups", name := "UPS Worldwide", logo := "📮", basePrice := 2400,
        estimatedDays := "4-7" }
      { id := "standard", name := "Standard Delivery", multiplier := 1, days := "5-8" }
      (sampleShipment.set "insuranceRequired" (.bool false)) initialPricing
      (by simp [carriers]) (by simp [deliveryOptions]) ReachablePricing.init
  have hb : p.basePrice = 2400 ∧ p.deliveryCharge = 2400 := by
    have hv := pricingEffect_valid
      { id := "ups", name := "UPS Worldwide", logo := "📮", basePrice := 2400,
        estimatedDays := "4-7" }
      { id := "standard", name := "Standard Delivery", multiplier := 1, days := "5-8" }
      (sampleShipment.set "insuranceRequired" (.bool false)) initialPricing
      (by simp [carriers]) (by simp [deliveryOptions])
    rw [hp] at hv
    injection hv with hv
    subst hv
    exact ⟨rfl, by norm_num⟩
  have e3 : p.subtotal = 5250 := by
    rw [h3, hb.1, hb.2, h1]
    simp only [JSObject.get_set_same, JSVal.truthy, Bool.false_eq_true, if_false]
    norm_num
  have e4 : p.gst = 945 := by rw [h4, e3]; norm_num
  have e5 : p.total = 6195 := by rw [h5, e3, e4]; norm_num
  exact ⟨p, hp, hb.1, hb.2, h1, h2, e3, e4, e5⟩

/-! ## Booking click -/

theorem lookup_map_prim (l : List (String × JSVal)) (k : String) :
    (l.map (fun p => (p.1, PayloadVal.prim p.2))).lookup k =
      (l.lookup k).map PayloadVal.prim := by
  induction l with
  | nil => rfl
  | cons hd tl ih =>
    obtain ⟨a, b⟩ := hd
    simp only [List.map_cons, List.lookup_cons]
    cases k == a
    · exact ih
    · rfl

theorem Payload.get_spread_context (s : Shipment) (c : PaymentContext) :
    (spreadWithContext s c).get "paymentContext" = .context c := by
  simp only [Payload.get, spreadWithContext, List.lookup_cons, beq_self_eq_true]

theorem Payload.get_spread_ne (s : Shipment) (c : PaymentContext) (k : String)
    (h : k ≠ "paymentContext") :
    (spreadWithContext s c).get k = .prim (s.get k) := by
  have hb : (k == "paymentContext") = false := by simpa using h
  simp only [Payload.get, spreadWithContext, List.lookup_cons, hb, lookup_map_prim,
    JSObject.get]
  cases s.props.lookup k <;> rfl

/-- What `handleBookingClick` does on a booking-eligible shipment. -/
theorem handleBookingClick_eligible (s : Shipment) (formData : FormData) (pricing : Pricing)
    (h : (isBookingEligible (.object s)).truthy = true) :
    handleBookingClick (.object s) formData pricing =
      .ok [{ route := if s.get "billTo" = .str "Consignee" ∧
                        s.get "paymentTiming" ≠ .str "COD"
                      then "request-payment" else "payment",
             payload := spreadWithContext s (buildPaymentContext s formData pricing) }] := by
  have e1 : (s.get "billTo").strictEq (.str "Consignee") =
      decide (s.get "billTo" = .str "Consignee") :=
    Bool.eq_iff_iff.mpr (by rw [JSVal.strictEq_str, decide_eq_true_iff])
  have e2 : (s.get "paymentTiming").strictEq (.str "COD") =
      decide (s.get "paymentTiming" = .str "COD") :=
    Bool.eq_iff_iff.mpr (by rw [JSVal.strictEq_str, decide_eq_true_iff])
  simp only [handleBookingClick, h, e1, e2]
  by_cases h1 : s.get "billTo" = .str "Consignee" <;>
    by_cases h2 : s.get "paymentTiming" = .str "COD" <;> simp [h1, h2]

/-- C8 fails on the code: the sample shipment is booking-eligible, has
`declaredValue` 5000 and no property `value`, and the payment context built
for it has `value` undefined, not the declared value. -/
theorem paymentContext_value_not_declaredValue :
    (isBookingEligible (.object sampleShipment)).truthy = true ∧
    sampleShipment.get "declaredValue" = .num 5000 ∧
    ∃ call ctx,
      handleBookingClick (.object sampleShipment) initialFormData initialPricing =
        .ok [call] ∧
      call.payload.get "paymentContext" = .context ctx ∧
      ctx.value = .undefined ∧
      ctx.value ≠ sampleShipment.get "declaredValue" := by
  have h : (isBookingEligible (.object sampleShipment)).truthy = true := by decide
  refine ⟨h, by decide, _, _, handleBookingClick_eligible _ _ _ h,
    Payload.get_spread_context _ _, by decide, by decide⟩

/-- C8 as amended: for every booking-eligible shipment, the payment context
that `handleBookingClick` puts in the payload carries `mode`, `shipmentType`,
`billTo`, `paymentTiming`, `paymentStatus`, `serviceLevel` and `value` equal to
the properties of the same name of the shipment (`value` is `shipment.value`,
not `shipment.declaredValue`), `codAllowed` equal to the `eligible` of
`checkCODEligibility`, the selected carrier and delivery speed of the form, and
the current price breakdown. -/
theorem paymentContext_fields (s : Shipment) (formData : FormData) (pricing : Pricing)
    (h : (isBookingEligible (.object s)).truthy = true) :
    ∃ call ctx,
      handleBookingClick (.object s) formData pricing = .ok [call] ∧
      call.payload.get "paymentContext" = .context ctx ∧
      ctx.mode = s.get "mode" ∧
      ctx.shipmentType = s.get "shipmentType" ∧
      ctx.billTo = s.get "billTo" ∧
      ctx.paymentTiming = s.get "paymentTiming" ∧
      ctx.paymentStatus = s.get "paymentStatus" ∧
      ctx.serviceLevel = s.get "serviceLevel" ∧
      ctx.value = s.get "value" ∧
      ctx.codAllowed = (checkCODEligibility (.object s)).eligible ∧
      ctx.selectedCarrier = formData.carrier ∧
      ctx.selectedDeliverySpeed = formData.deliverySpeed ∧
      ctx.pricing = pricing :=
  ⟨_, _, handleBookingClick_eligible s formData pricing h, Payload.get_spread_context _ _,
    rfl, rfl, rfl, rfl, rfl, rfl, rfl, rfl, rfl, rfl, rfl⟩

/-- C8 as amended, on the sample shipment with a property `value` of 4200
beside its `declaredValue` of 5000: the context carries 4200. -/
theorem paymentContext_fields_witness :
    ∃ call ctx,
      handleBookingClick (.object (sampleShipment.set "value" (.num 4200))) initialFormData
        initialPricing = .ok [call] ∧
      call.payload.get "paymentContext" = .context ctx ∧
      ctx.mode = .str "Road" ∧ ctx.billTo = .str "Shipper" ∧ ctx.value = .num 4200 ∧
      ctx.codAllowed = true ∧ ctx.selectedCarrier = "ups" ∧ ctx.pricing = initialPricing := by
  obtain ⟨call, ctx, hc, hp, h1, _, h3, _, _, _, h7, h8, h9, _, h11⟩ :=
    paymentContext_fields (sampleShipment.set "value" (.num 4200)) initialFormData
      initialPricing (by decide)
  exact ⟨call, ctx, hc, hp, h1.trans (by decide), h3.trans (by decide), h7.trans (by decide),
    h8.trans (by decide), h9, h11⟩

/-- C9: `handleBookingClick` never throws; for a shipment prop that is not
booking-eligible it makes no call of `onNavigate`; for a booking-eligible one
it makes exactly one call, with route 'request-payment' if `billTo` is
'Consignee' and `paymentTiming` is not 'COD' and route 'payment' otherwise, and
a payload whose property `paymentContext` is the payment context and whose
every other property is that of the shipment. -/
theorem handleBookingClick_routing (shipment : ShipmentProp) (formData : FormData)
    (pricing : Pricing) :
    ((isBookingEligible shipment).truthy = false →
      handleBookingClick shipment formData pricing = .ok []) ∧
    ((isBookingEligible shipment).truthy = true →
      ∃ s payload, shipment = .object s ∧
        handleBookingClick shipment formData pricing =
          .ok [{ route := if s.get "billTo" = .str "Consignee" ∧
                            s.get "paymentTiming" ≠ .str "COD"
                          then "request-payment" else "payment",
                 payload := payload }] ∧
        payload.get "paymentContext" = .context (buildPaymentContext s formData pricing) ∧
        ∀ k, k ≠ "paymentContext" → payload.get k = .prim (s.get k)) := by
  constructor
  · intro h
    simp [handleBookingClick, h]
  · intro h
    cases shipment with
    | undefined => simp [isBookingEligible, JSVal.truthy] at h
    | null => simp [isBookingEligible, JSVal.truthy] at h
    | object s =>
      exact ⟨s, _, rfl, handleBookingClick_eligible s formData pricing h,
        Payload.get_spread_context _ _, fun k hk => Payload.get_spread_ne _ _ k hk⟩

/-- C9 on three props: an absent shipment gives no call; the sample shipment
billed to the consignee and prepaid gives one call with route
'request-payment'; the sample shipment (billed to the shipper, COD) gives one
call with route 'payment'; the payloads keep the token of the shipment. -/
theorem handleBookingClick_routing_witness :
    handleBookingClick .null initialFormData initialPricing = .ok [] ∧
    (∃ payload,
      handleBookingClick (.object consigneeShipment) initialFormData initialPricing =
        .ok [{ route := "request-payment", payload := payload }] ∧
      payload.get "token" = .prim (.str "TKN-001")) ∧
    (∃ payload,
      handleBookingClick (.object sampleShipment) initialFormData initialPricing =
        .ok [{ route := "payment", payload := payload }] ∧
      payload.get "token" = .prim (.str "TKN-001")) := by
  refine ⟨(handleBookingClick_routing .null initialFormData initialPricing).1 (by decide),
    ?_, ?_⟩
  · obtain ⟨s, payload, hs, hcall, _, hk⟩ :=
      (handleBookingClick_routing (.object consigneeShipment) initialFormData
        initialPricing).2 (by decide)
    injection hs with hs
    subst hs
    refine ⟨payload, ?_, (hk "token" (by decide)).trans (by decide)⟩
    have hr : (if consigneeShipment.get "billTo" = .str "Consignee" ∧
        consigneeShipment.get "paymentTiming" ≠ .str "COD"
        then "request-payment" else "payment") = "request-payment" := by decide
    rw [hcall, hr]
  · obtain ⟨s, payload, hs, hcall, _, hk⟩ :=
      (handleBookingClick_routing (.object sampleShipment) initialFormData
        initialPricing).2 (by decide)
    injection hs with hs
    subst hs
    refine ⟨payload, ?_, (hk "token" (by decide)).trans (by decide)⟩
    have hr : (if sampleShipment.get "billTo" = .str "Consignee" ∧
        sampleShipment.get "paymentTiming" ≠ .str "COD"
        then "request-payment" else "payment") = "payment" := by decide
    rw [hcall, hr]

/-! ## Booking eligibility alert -/

theorem isBookingEligible_conditions (s : Shipment) :
    isBookingEligible (.object s) = .bool ((bookingConditions s).all id) := by
  simp [isBookingEligible, bookingConditions, Bool.and_assoc]

/-- C10 fails on the code: the booked sample shipment fails
`isBookingEligible` with exactly one failing condition (its `bookingStatus`),
and the displayed reason list is empty. -/
theorem eligibilityAlert_booked_no_reason :
    (isBookingEligible (.object bookedShipment)).truthy = false ∧
    isBookingEligible (.object bookedShipment) =
      .bool ((bookingConditions bookedShipment).all id) ∧
    bookingConditions bookedShipment = [true, true, true, true, false] ∧
    (bookingConditions bookedShipment).count false = 1 ∧
    eligibilityAlert bookedShipment = some [] ∧
    ¬ (∃ l, eligibilityAlert bookedShipment = some l ∧
        l.length = (bookingConditions bookedShipment).count false) := by
  refine ⟨by decide, isBookingEligible_conditions _, by decide, by decide, by decide, ?_⟩
  rintro ⟨l, hl, hlen⟩
  have h0 : eligibilityAlert bookedShipment = some [] := by decide
  rw [h0] at hl
  injection hl with hl
  subst hl
  have h1 : (bookingConditions bookedShipment).count false = 1 := by decide
  rw [h1] at hlen
  exact absurd hlen (by decide)

/-- C10 as amended: for every present shipment that fails `isBookingEligible`,
the displayed reason list is exactly, in this order and without
short-circuiting, the AI-compliance reason iff `aiComplianceStatus` is not
'cleared', the broker-review reason iff `brokerReviewStatus` is not 'approved',
the shipment-status reason iff `status` is not 'token-generated', and the
no-token reason iff the token is falsy; so the list has one reason per failing
check among these four, and none for `bookingStatus`. -/
theorem eligibilityAlert_reasons (s : Shipment)
    (h : (isBookingEligible (.object s)).truthy = false) :
    eligibilityAlert s = some (
      (if s.get "aiComplianceStatus" ≠ .str "cleared"
        then [ReasonItem.aiCompliance (s.get "aiComplianceStatus")] else []) ++
      (if s.get "brokerReviewStatus" ≠ .str "approved"
        then [ReasonItem.brokerReview (s.get "brokerReviewStatus")] else []) ++
      (if s.get "status" ≠ .str "token-generated"
        then [ReasonItem.shipmentStatus (s.get "status")] else []) ++
      (if (s.get "token").truthy = false then [ReasonItem.noToken] else [])) ∧
    ∃ l, eligibilityAlert s = some l ∧
      l.length =
        (if s.get "aiComplianceStatus" ≠ .str "cleared" then 1 else 0) +
        (if s.get "brokerReviewStatus" ≠ .str "approved" then 1 else 0) +
        (if s.get "status" ≠ .str "token-generated" then 1 else 0) +
        (if (s.get "token").truthy = false then 1 else 0) := by
  have e1 : (s.get "aiComplianceStatus").strictEq (.str "cleared") =
      decide (s.get "aiComplianceStatus" = .str "cleared") :=
    Bool.eq_iff_iff.mpr (by rw [JSVal.strictEq_str, decide_eq_true_iff])
  have e2 : (s.get "brokerReviewStatus").strictEq (.str "approved") =
      decide (s.get "brokerReviewStatus" = .str "approved") :=
    Bool.eq_iff_iff.mpr (by rw [JSVal.strictEq_str, decide_eq_true_iff])
  have e3 : (s.get "status").strictEq (.str "token-generated") =
      decide (s.get "status" = .str "token-generated") :=
    Bool.eq_iff_iff.mpr (by rw [JSVal.strictEq_str, decide_eq_true_iff])
  have hl : eligibilityAlert s = some (
      (if s.get "aiComplianceStatus" ≠ .str "cleared"
        then [ReasonItem.aiCompliance (s.get "aiComplianceStatus")] else []) ++
      (if s.get "brokerReviewStatus" ≠ .str "approved"
        then [ReasonItem.brokerReview (s.get "brokerReviewStatus")] else []) ++
      (if s.get "status" ≠ .str "token-generated"
        then [ReasonItem.shipmentStatus (s.get "status")] else []) ++
      (if (s.get "token").truthy = false then [ReasonItem.noToken] else [])) := by
    simp only [eligibilityAlert, h, e1, e2, e3]
    by_cases h1 : s.get "aiComplianceStatus" = .str "cleared" <;>
      by_cases h2 : s.get "brokerReviewStatus" = .str "approved" <;>
      by_cases h3 : s.get "status" = .str "token-generated" <;>
      cases h4 : (s.get "token").truthy <;> simp [h1, h2, h3]
  refine ⟨hl, _, hl, ?_⟩
  by_cases h1 : s.get "aiComplianceStatus" = .str "cleared" <;>
    by_cases h2 : s.get "brokerReviewStatus" = .str "approved" <;>
    by_cases h3 : s.get "status" = .str "token-generated" <;>
    cases h4 : (s.get "token").truthy <;> simp [h1, h2, h3]

/-- C10 as amended, on the sample shipment with compliance pending and an
empty token: the list is the AI-compliance reason, then the no-token reason. -/
theorem eligibilityAlert_reasons_witness :
    (isBookingEligible (.object pendingShipment)).truthy = false ∧
    eligibilityAlert pendingShipment =
      some [ReasonItem.aiCompliance (.str "pending"), ReasonItem.noToken] :=
  ⟨by decide, (eligibilityAlert_reasons pendingShipment (by decide)).1.trans (by decide)⟩

/-! ## Booking button -/

/-- C11: for every present shipment, `isBookingDisabled` equals the simplified
predicate "`bookingStatus` is 'booked' or the token is falsy": its second
clause, `paymentStatus` 'paid' and `bookingStatus` 'booked', never changes the
result, which does not depend on `paymentStatus`. -/
theorem isBookingDisabled_simplified (s : Shipment) :
    isBookingDisabled s = isBookingDisabledSimplified s ∧
    (isBookingDisabled s = true ↔
      s.get "bookingStatus" = .str "booked" ∨ (s.get "token").truthy = false) ∧
    ∀ v : JSVal, isBookingDisabled (s.set "paymentStatus" v) = isBookingDisabled s := by
  have h1 : isBookingDisabled s = isBookingDisabledSimplified s := by
    simp only [isBookingDisabled, isBookingDisabledSimplified]
    cases (s.get "bookingStatus").strictEq (.str "booked") <;>
      cases (s.get "paymentStatus").strictEq (.str "paid") <;>
      cases (s.get "token").truthy <;> rfl
  refine ⟨h1, ?_, fun v => ?_⟩
  · rw [h1, ← JSVal.strictEq_str]
    simp only [isBookingDisabledSimplified]
    cases (s.get "bookingStatus").strictEq (.str "booked") <;>
      cases (s.get "token").truthy <;> simp
  · simp only [isBookingDisabled, JSObject.get_set_same,
      JSObject.get_set_ne s "paymentStatus" "bookingStatus" v (by decide),
      JSObject.get_set_ne s "paymentStatus" "token" v (by decide)]
    cases (s.get "bookingStatus").strictEq (.str "booked") <;>
      cases (s.get "paymentStatus").strictEq (.str "paid") <;>
      cases v.strictEq (.str "paid") <;>
      cases (s.get "token").truthy <;> rfl

/-- C11 on the booked sample shipment and on the sample shipment: disabled and
not disabled, also once `paymentStatus` is 'paid'. -/
theorem isBookingDisabled_simplified_witness :
    isBookingDisabled bookedShipment = true ∧
    isBookingDisabled (bookedShipment.set "paymentStatus" (.str "paid")) = true ∧
    isBookingDisabled sampleShipment = false ∧
    isBookingDisabled (sampleShipment.set "paymentStatus" (.str "paid")) = false :=
  ⟨(isBookingDisabled_simplified bookedShipment).2.1.mpr (Or.inl (by decide)),
    ((isBookingDisabled_simplified bookedShipment).2.2 (.str "paid")).trans (by decide),
    (isBookingDisabled_simplified sampleShipment).1.trans (by decide),
    ((isBookingDisabled_simplified sampleShipment).2.2 (.str "paid")).trans (by decide)⟩

/-- For a booking-eligible shipment, the button is disabled by
`isBookingDisabled` exactly when the token is falsy. -/
theorem isBookingDisabled_of_eligible (s : Shipment)
    (h : (isBookingEligible (.object s)).truthy = true) :
    isBookingDisabled s = !(s.get "token").truthy := by
  have hb : (s.get "bookingStatus").strictEq (.str "booked") = false := by
    have hne := ((isBookingEligible_object s).mp h).2.2.2.2
    cases hc : (s.get "bookingStatus").strictEq (.str "booked")
    · rfl
    · exact absurd ((JSVal.strictEq_str _ _).mp hc) hne
  simp only [isBookingDisabled, hb, Bool.and_false, Bool.false_or]

/-- C12 at its failing inputs: the shipment without a property `token` and the
shipment with the empty token are booking-eligible, yet `isBookingDisabled` is
true for them; the button is disabled although `!bookingEligible` is false,
no alert is shown and the label is 'Proceed to Payment'. -/
theorem bookingButton_disabled_while_eligible :
    missingTokenShipment.get "token" = .undefined ∧
    (isBookingEligible (.object missingTokenShipment)).truthy = true ∧
    isBookingDisabled missingTokenShipment = true ∧
    bookingButtonDisabled missingTokenShipment = true ∧
    (!(isBookingEligible (.object missingTokenShipment)).truthy) = false ∧
    eligibilityAlert missingTokenShipment = none ∧
    bookingButtonLabel missingTokenShipment = "Proceed to Payment" ∧
    emptyTokenShipment.get "token" = .str "" ∧
    (isBookingEligible (.object emptyTokenShipment)).truthy = true ∧
    isBookingDisabled emptyTokenShipment = true ∧
    bookingButtonDisabled emptyTokenShipment = true ∧
    eligibilityAlert emptyTokenShipment = none ∧
    bookingButtonLabel emptyTokenShipment = "Proceed to Payment" := by
  refine ⟨?_, ?_, ?_, ?_, ?_, ?_, ?_, ?_, ?_, ?_, ?_, ?_, ?_⟩ <;> decide

end ShipmentBooking
